import Mathlib

/-!
Verification of the forymusic catalog server (src/server.js).

The file shallowly embeds the request handlers of the server as pure Lean
functions over an explicit state: the tracks table, the users table and the
content of the local uploads directory are ordinary lists, external I/O
(bcrypt comparison, the Supabase storage fetch, DDL execution, filesystem
unlink failures) is passed in as oracle parameters, and each handler returns
its HTTP response together with the updated state.  The definitions follow
the JavaScript line by line; theorems about the upload pipeline, the track
store, the access guard, the login endpoint and the startup sequence are
proved below the definitions.
-/

namespace Forymusic

/-- JS truthiness of an optional string field: an absent field (undefined)
and the empty string are falsy, every other string is truthy. -/
def jsTruthy : Option String → Bool
  | none => false
  | some s => s != ""

/-- JS String.prototype.toLowerCase, restricted to the ASCII range. -/
def lowerStr (s : String) : String := String.mk (s.data.map Char.toLower)

/-- JS String.prototype.trim: strip leading and trailing whitespace. -/
def trimStr (s : String) : String :=
  String.mk (((s.data.dropWhile Char.isWhitespace).reverse.dropWhile Char.isWhitespace).reverse)

/-- s.indexOf(p) === 0, i.e. p is a leading substring of s. -/
def startsWithStr (s p : String) : Bool := p.data.isPrefixOf s.data

/-- s ends with the suffix p. -/
def endsWithStr (s p : String) : Bool := p.data.reverse.isPrefixOf s.data.reverse

/-- Process configuration read from the environment at startup
(ADMIN_PASSWORD, SUPABASE_URL, SUPABASE_SERVICE_KEY, SUPABASE_BUCKET). -/
structure Config where
  adminPassword : String
  supabaseUrl : String
  supabaseServiceKey : String
  supabaseBucket : String
deriving Repr, DecidableEq

/-- A row of the tracks table: id SERIAL, title TEXT NOT NULL,
artist TEXT (nullable), url TEXT NOT NULL. -/
structure Track where
  id : Nat
  title : String
  artist : Option String
  url : String
deriving Repr, DecidableEq

/-- A row of the users table: id SERIAL, email TEXT UNIQUE, password TEXT
(a bcrypt hash), and the JSONB columns likes and playlists, modelled as
lists of opaque entries. -/
structure UserRow where
  id : Nat
  email : String
  passwordHash : String
  likes : List String
  playlists : List String
deriving Repr, DecidableEq

/-- The mutable state the track handlers touch: the files present in the
uploads directory (as paths), the tracks table, and the SERIAL sequence
that assigns the next track id. -/
structure ServerState where
  files : List String
  tracks : List Track
  nextTrackId : Nat
deriving Repr, DecidableEq

/-- An endpoint response: res.status(s).json with an error message, or a
JSON payload on success. -/
inductive Resp (α : Type) where
  | err (status : Nat) (message : String)
  | ok (payload : α)
deriving Repr, DecidableEq

/-- The HTTP status of a response, when it is an error response. -/
def respStatus {α : Type} : Resp α → Option Nat
  | .err s _ => some s
  | .ok _ => none

/-- SELECT of a user row by already-lowercased email. -/
def findUserByEmail (db : List UserRow) (email : String) : Option UserRow :=
  db.find? (fun u => u.email == email)

/-- The JSON shape returned for a user: id, email, likes, playlists
(the password hash is never returned). -/
structure UserJson where
  id : Nat
  email : String
  likes : List String
  playlists : List String
deriving Repr, DecidableEq

/-- POST /api/login (src/server.js lines 130-160): lowercase the email,
look the user up, and compare the supplied password against the stored
hash through bcrypt, modelled by the hashMatches oracle.  Both failure
branches answer status 401 with the same message. -/
def login (hashMatches : String → String → Bool) (db : List UserRow)
    (email password : String) : Resp UserJson :=
  let lowered := lowerStr email
  match findUserByEmail db lowered with
  | none => .err 401 "Неверный email или пароль"
  | some u =>
    if hashMatches password u.passwordHash then
      .ok { id := u.id, email := u.email, likes := u.likes, playlists := u.playlists }
    else
      .err 401 "Неверный email или пароль"

/-- PUT /api/user/:id/likes (lines 189-205).  idParam is the parseInt of
the path segment, with 0 standing for both 0 and NaN (the JS-falsy
outcomes); likes is none when the body field is not an array.  The UPDATE
statement carries no row-count check: a missing user id updates nothing
and the handler still answers success echoing the input. -/
def replaceLikes (db : List UserRow) (idParam : Int) (likes : Option (List String)) :
    Resp (List String) × List UserRow :=
  if idParam == 0 then (.err 400 "id обязателен", db)
  else
    match likes with
    | none => (.err 400 "likes должен быть массивом", db)
    | some ls =>
      (.ok ls, db.map (fun u => if (u.id : Int) == idParam then { u with likes := ls } else u))

/-- PUT /api/user/:id/playlists (lines 208-224), same shape as the likes
handler. -/
def replacePlaylists (db : List UserRow) (idParam : Int) (playlists : Option (List String)) :
    Resp (List String) × List UserRow :=
  if idParam == 0 then (.err 400 "id обязателен", db)
  else
    match playlists with
    | none => (.err 400 "playlists должен быть массивом", db)
    | some ps =>
      (.ok ps, db.map (fun u => if (u.id : Int) == idParam then { u with playlists := ps } else u))

/-- The four DDL statements initDb executes (lines 60-83); the jsonb
default literals are abbreviated to keep the strings plain. -/
def ddlStatements : List String :=
  [ "CREATE TABLE IF NOT EXISTS users (id SERIAL PRIMARY KEY, email TEXT UNIQUE NOT NULL, password TEXT NOT NULL)"
  , "CREATE TABLE IF NOT EXISTS tracks (id SERIAL PRIMARY KEY, title TEXT NOT NULL, artist TEXT, url TEXT NOT NULL)"
  , "ALTER TABLE users ADD COLUMN IF NOT EXISTS likes JSONB DEFAULT empty jsonb array"
  , "ALTER TABLE users ADD COLUMN IF NOT EXISTS playlists JSONB DEFAULT empty jsonb array" ]

/-- initDb (lines 60-83): run the DDL statements in order through the
database oracle; an await that rejects short-circuits the rest. -/
def initDb (run : String → Except String Unit) : Except String Unit :=
  ddlStatements.foldlM (fun _ s => run s) ()

/-- What the module-level startup code produces: the error logged by the
catch handler, if any, and whether app.listen was reached. -/
structure StartupOutcome where
  loggedError : Option String
  listening : Bool
deriving Repr, DecidableEq

/-- Lines 85-87 and 399-401: initDb() is launched with a .catch that only
logs the error to the console, and app.listen is executed unconditionally
at module level, so the server listens whatever initDb did. -/
def startServer (run : String → Except String Unit) : StartupOutcome :=
  match initDb run with
  | .ok _ => { loggedError := none, listening := true }
  | .error e => { loggedError := some ("DB init error: " ++ e), listening := true }

/-- The token requireOwner reads (line 91): the body field when truthy,
otherwise the header value, otherwise the empty string. -/
def ownerToken (body header : Option String) : String :=
  if jsTruthy body then body.getD "" else header.getD ""

/-- requireOwner middleware (lines 90-96): pass exactly when the token is
truthy and equals ADMIN_PASSWORD. -/
def requireOwnerPasses (cfg : Config) (body header : Option String) : Bool :=
  let t := ownerToken body header
  !(t == "") && t == cfg.adminPassword

/-- The file multer staged before the handler runs: its full path in the
uploads directory and its bare filename. -/
structure StagedFile where
  path : String
  filename : String
deriving Repr, DecidableEq

/-- The fields of a POST /api/tracks/upload request after multer parsed
the multipart body: the admin password form field, the same-named header
(present on the wire, though this route never reads it), title and artist
form fields, and the staged file. -/
structure UploadRequest where
  bodyAdminPassword : Option String
  headerAdminPassword : Option String
  title : Option String
  artist : Option String
  file : Option StagedFile
deriving Repr, DecidableEq

/-- Outcome of the fetch call to Supabase storage (external I/O, an
oracle): a 2xx response, a non-2xx response with its body text, or a
thrown exception with its message. -/
inductive FetchOutcome where
  | ok
  | httpError (status : Nat) (text : String)
  | exn (message : String)
deriving Repr, DecidableEq

/-- fs.unlink or fs.unlinkSync on the modelled disk: the path disappears
from the directory listing.  (Both call sites in the upload route swallow
any filesystem error.) -/
def removeFile (files : List String) (p : String) : List String :=
  files.filter (fun q => q != p)

/-- Line 259: the upload route reads the admin password from the request
body only, and rejects when the field is falsy or differs from
ADMIN_PASSWORD. -/
def uploadAuthFails (cfg : Config) (ap : Option String) : Bool :=
  !(jsTruthy ap) || ap != some cfg.adminPassword

/-- INSERT INTO tracks (title, artist, url) RETURNING id. -/
def insertTrack (st : ServerState) (title : String) (artist : Option String)
    (url : String) : Nat × ServerState :=
  (st.nextTrackId,
   { st with
      tracks := st.tracks ++
        [{ id := st.nextTrackId, title := title, artist := artist, url := url }],
      nextTrackId := st.nextTrackId + 1 })

/-- The JSON shape returned for a freshly created track: id, title, the
trimmed artist field as sent (possibly empty), and the resolved url. -/
structure TrackJson where
  id : Nat
  title : String
  artist : String
  url : String
deriving Repr, DecidableEq

/-- Lines 330-335: insert the row (an empty artist becomes NULL) and
answer with the new id, title, artist and url. -/
def recordTrack (st : ServerState) (title artist url : String) :
    Resp TrackJson × ServerState :=
  let r := insertTrack st title (if artist == "" then none else some artist) url
  (.ok { id := r.1, title := title, artist := artist, url := url }, r.2)

/-- SUPABASE_URL.replace of the trailing-slash run (lines 288 and 318). -/
def stripTrailingSlashes (s : String) : String :=
  String.mk (s.data.reverse.dropWhile (fun c => c == '/')).reverse

/-- POST /api/tracks/upload (lines 257-340).  The inline authorization
check reads only the body field and, on failure, unlinks the staged file
and answers 403.  Then title is trimmed and validated, the staged file is
required, and if Supabase is configured the bytes are offloaded: the
finally clause unlinks the local file on every offload outcome, a non-2xx
response or an exception answers 500 before any insert, and a 2xx response
records the public storage url.  Without Supabase the local /uploads url
is recorded and the local file stays. -/
def uploadTrack (cfg : Config) (fetchResult : FetchOutcome) (req : UploadRequest)
    (st : ServerState) : Resp TrackJson × ServerState :=
  if uploadAuthFails cfg req.bodyAdminPassword then
    let cleaned :=
      match req.file with
      | some f => { st with files := removeFile st.files f.path }
      | none => st
    (.err 403 "Нет прав. Неверный admin-пароль.", cleaned)
  else
    let title := trimStr (req.title.getD "")
    let artist := trimStr (req.artist.getD "")
    if title == "" then (.err 400 "title обязателен", st)
    else
      match req.file with
      | none => (.err 400 "Нужен audio-файл (поле file)", st)
      | some f =>
        if cfg.supabaseUrl != "" && cfg.supabaseServiceKey != "" then
          let afterCleanup := { st with files := removeFile st.files f.path }
          match fetchResult with
          | .ok =>
            let publicUrl := stripTrailingSlashes cfg.supabaseUrl
              ++ "/storage/v1/object/public/" ++ cfg.supabaseBucket ++ "/" ++ f.filename
            recordTrack afterCleanup title artist publicUrl
          | .httpError _ text =>
            (.err 500 ("Не удалось загрузить файл в Supabase Storage: " ++ text), afterCleanup)
          | .exn m =>
            (.err 500 ("Ошибка при загрузке файла в Supabase Storage: " ++ m), afterCleanup)
        else
          recordTrack st title artist ("/uploads/" ++ f.filename)

/-- The server directory __dirname, an opaque constant of the model. -/
def appDir : String := "app"

/-- path.join for one separator step. -/
def pathJoin (a b : String) : String := a ++ "/" ++ b

/-- Line 383: the on-disk path for a locally served track url, i.e.
path.join of __dirname with the url whose leading "/uploads/" (9
characters) is rewritten to "uploads/". -/
def deleteFilePath (url : String) : String :=
  pathJoin appDir ("uploads/" ++ url.drop 9)

/-- DELETE /api/tracks/:id (lines 367-392), behind requireOwner.  idParam
models parseInt of the path id with 0 for NaN and 0; unlinkFails models a
filesystem error inside the fire-and-forget fs.unlink whose callback
discards any error.  The handler selects the row, answers 404 when it is
absent (also when the DELETE touches no row), removes the row, and when
the url starts with "/uploads/" unlinks the backing file best-effort. -/
def deleteTrack (cfg : Config) (body header : Option String) (idParam : Int)
    (unlinkFails : Bool) (st : ServerState) : Resp Unit × ServerState :=
  if !(requireOwnerPasses cfg body header) then
    (.err 403 "Нет прав. Неверный admin-пароль.", st)
  else if idParam == 0 then (.err 400 "id обязателен", st)
  else
    match st.tracks.find? (fun t => (t.id : Int) == idParam) with
    | none => (.err 404 "Трек не найден", st)
    | some row =>
      let removedCount := (st.tracks.filter (fun t => (t.id : Int) == idParam)).length
      let afterDelete :=
        { st with tracks := st.tracks.filter (fun t => !((t.id : Int) == idParam)) }
      if removedCount == 0 then (.err 404 "Трек не найден", afterDelete)
      else if startsWithStr row.url "/uploads/" then
        let fin :=
          if unlinkFails then afterDelete
          else { afterDelete with files := removeFile afterDelete.files (deleteFilePath row.url) }
        (.ok (), fin)
      else (.ok (), afterDelete)

/-- Node path.basename without an extension argument, POSIX rules: drop
the trailing slash run, then keep the part after the last slash. -/
def jsBasenameRaw (p : String) : String :=
  let cs := (p.data.reverse.dropWhile (fun c => c == '/')).reverse
  if cs.isEmpty then (if p.data.isEmpty then "" else "/")
  else String.mk (cs.reverse.takeWhile (fun c => c != '/')).reverse

/-- Index of the last dot of a character list, if any. -/
def lastDotIndex (cs : List Char) : Option Nat :=
  match cs.reverse.findIdx? (fun c => c == '.') with
  | none => none
  | some j => some (cs.length - 1 - j)

/-- Node path.extname, POSIX rules: the basename substring from its last
dot to the end; empty when there is no dot, when the only dot is the
leading character, or for the special name made of two dots. -/
def jsExtname (p : String) : String :=
  let b := jsBasenameRaw p
  match lastDotIndex b.data with
  | none => ""
  | some i => if i == 0 || b == ".." then "" else String.mk (b.data.drop i)

/-- Node path.basename with an extension argument: the raw basename with
the suffix removed when it matches and is not the whole name. -/
def jsBasenameExt (p ext : String) : String :=
  let b := jsBasenameRaw p
  if ext != "" && b != ext && endsWithStr b ext then b.dropRight ext.length else b

/-- The safe character set of the sanitizing regex on line 50:
ASCII letters, digits, underscore and hyphen. -/
def isSafeChar (c : Char) : Bool :=
  (97 ≤ c.toNat && c.toNat ≤ 122) || (65 ≤ c.toNat && c.toNat ≤ 90) ||
    (48 ≤ c.toNat && c.toNat ≤ 57) || c == '_' || c == '-'

/-- One step of the global regex replace: an unsafe character becomes an
underscore. -/
def sanitizeChar (c : Char) : Char := if isSafeChar c then c else '_'

/-- base.replace of every unsafe character by an underscore (line 50). -/
def sanitizeBase (s : String) : String := String.mk (s.data.map sanitizeChar)

/-- Line 49: path.extname of the original name, defaulted to ".mp3" when
empty. -/
def stagedExt (orig : String) : String :=
  if jsExtname orig == "" then ".mp3" else jsExtname orig

/-- Line 50: the sanitized base of the original name. -/
def stagedBase (orig : String) : String :=
  sanitizeBase (jsBasenameExt orig (stagedExt orig))

/-- The multer filename callback (lines 48-52): Date.now(), an
underscore, the sanitized base, then the extension verbatim. -/
def stagedFilename (now : Nat) (orig : String) : String :=
  toString now ++ "_" ++ stagedBase orig ++ stagedExt orig

/-! ## Sample values for concrete instantiations -/

/-- A sample stored user row. -/
def sampleUser : UserRow :=
  { id := 1, email := "a@b.com", passwordHash := "h", likes := ["x"], playlists := [] }

/-- A configuration without Supabase (local serving mode), admin secret s. -/
def cfgLocal : Config :=
  { adminPassword := "s", supabaseUrl := "", supabaseServiceKey := "", supabaseBucket := "music" }

/-- A configuration with Supabase storage configured. -/
def cfgRemote : Config :=
  { adminPassword := "s", supabaseUrl := "https://sb.example", supabaseServiceKey := "k", supabaseBucket := "music" }

/-- A staged file as multer records it. -/
def sampleStaged : StagedFile :=
  { path := "app/uploads/100_track.mp3", filename := "100_track.mp3" }

/-- A server state holding the staged file on disk and an empty catalog. -/
def sampleState : ServerState :=
  { files := ["app/uploads/100_track.mp3"], tracks := [], nextTrackId := 1 }

/-- An upload request with the given credentials, title and file, and no
artist field. -/
def mkUploadReq (body header title : Option String) (file : Option StagedFile) : UploadRequest :=
  { bodyAdminPassword := body, headerAdminPassword := header, title := title, artist := none, file := file }

/-- A sample catalog row whose url is a locally served upload. -/
def sampleLocalTrack : Track :=
  { id := 1, title := "T", artist := none, url := "/uploads/100_track.mp3" }

/-- A sample catalog row whose url is remote. -/
def sampleRemoteTrack : Track :=
  { id := 2, title := "R", artist := none, url := "https://sb.example/storage/v1/object/public/music/t.mp3" }

/-- A server state holding both sample tracks and the local backing file. -/
def sampleCatalogState : ServerState :=
  { files := ["app/uploads/100_track.mp3"], tracks := [sampleLocalTrack, sampleRemoteTrack], nextTrackId := 3 }

/-! ## Helper lemmas -/

/-- A map that fixes every element of a list leaves the list unchanged. -/
theorem map_eq_self_of_fixed {α : Type} (l : List α) (f : α → α)
    (h : ∀ a ∈ l, f a = a) : l.map f = l := by
  induction l with
  | nil => rfl
  | cons x xs ih =>
    rw [List.map_cons, h x (List.mem_cons_self x xs),
      ih (fun a ha => h a (List.mem_cons_of_mem x ha))]

/-- Unlinking a path removes it from the modelled directory. -/
theorem not_mem_removeFile (files : List String) (p : String) :
    p ∉ removeFile files p := by
  intro hmem
  rcases List.mem_filter.mp hmem with ⟨-, hp⟩
  simp at hp

/-- Whenever the body admin password is absent or different from the
configured secret, the inline check of the upload route fails. -/
theorem uploadAuthFails_of_bad (cfg : Config) (ap : Option String)
    (h : ap = none ∨ ap ≠ some cfg.adminPassword) :
    uploadAuthFails cfg ap = true := by
  rcases h with h | h
  · simp [uploadAuthFails, jsTruthy, h]
  · cases ap with
    | none => simp [uploadAuthFails, jsTruthy]
    | some s =>
      by_cases hs : s = ""
      · simp [uploadAuthFails, jsTruthy, hs]
      · have hne : s ≠ cfg.adminPassword := fun hc => h (by rw [hc])
        simp [uploadAuthFails, jsTruthy, hs, hne]

/-- With the correct non-empty secret in the body, the inline check of
the upload route passes. -/
theorem uploadAuthFails_of_good (cfg : Config) (h : cfg.adminPassword ≠ "") :
    uploadAuthFails cfg (some cfg.adminPassword) = false := by
  simp [uploadAuthFails, jsTruthy, h]

/-- Shared description of the forbidden path of the upload route: a
failing body-password check answers 403, leaves the tracks table alone,
and unlinks the staged file when one exists. -/
theorem uploadForbiddenPath (cfg : Config) (fetchResult : FetchOutcome)
    (req : UploadRequest) (st : ServerState)
    (h : req.bodyAdminPassword = none ∨ req.bodyAdminPassword ≠ some cfg.adminPassword) :
    (uploadTrack cfg fetchResult req st).1 = Resp.err 403 "Нет прав. Неверный admin-пароль."
    ∧ (uploadTrack cfg fetchResult req st).2.tracks = st.tracks
    ∧ ∀ f, req.file = some f → f.path ∉ (uploadTrack cfg fetchResult req st).2.files := by
  have hfail := uploadAuthFails_of_bad cfg req.bodyAdminPassword h
  cases hf : req.file with
  | none =>
    refine ⟨?_, ?_, ?_⟩
    · simp [uploadTrack, hfail, hf]
    · simp [uploadTrack, hfail, hf]
    · intro f hcontra
      exact absurd hcontra (by simp)
  | some f =>
    refine ⟨?_, ?_, ?_⟩
    · simp [uploadTrack, hfail, hf]
    · simp [uploadTrack, hfail, hf]
    · intro g hg
      cases hg
      simp [uploadTrack, hfail, hf, removeFile, List.mem_filter]

/-! ## Claim theorems -/

/-- C8: every failing Authenticate call produces the identical response —
status 401 with the one fixed message — whether the normalized email has
no account or the account exists and the password comparison fails, so
the response does not leak which case occurred. -/
theorem login_no_leak (hm : String → String → Bool) (db : List UserRow)
    (email password : String) :
    (findUserByEmail db (lowerStr email) = none →
      login hm db email password = Resp.err 401 "Неверный email или пароль")
    ∧ (∀ u, findUserByEmail db (lowerStr email) = some u →
        hm password u.passwordHash = false →
        login hm db email password = Resp.err 401 "Неверный email или пароль") := by
  constructor
  · intro h
    simp [login, h]
  · intro u hu hpw
    simp [login, hu, hpw]

/-- C8 witness: a login against a store holding one account, with a
comparison oracle that rejects, fails with the uniform 401 response. -/
theorem login_no_leak_witness :
    login (fun _ _ => false) [sampleUser] "A@B.com" "pw"
      = Resp.err 401 "Неверный email или пароль" :=
  (login_no_leak (fun _ _ => false) [sampleUser] "A@B.com" "pw").2
    sampleUser (by decide) (by decide)

/-- C10: when the id names no row of the users table and the body carries
a well-formed array, ReplaceLikes and ReplacePlaylists both answer
success echoing the supplied collection and leave the table unchanged — a
silent no-op, not NotFound. -/
theorem replace_collections_missing_user (db : List UserRow) (idParam : Int)
    (ls ps : List String) (hid : idParam ≠ 0)
    (hmiss : ∀ u ∈ db, (u.id : Int) ≠ idParam) :
    replaceLikes db idParam (some ls) = (Resp.ok ls, db)
    ∧ replacePlaylists db idParam (some ps) = (Resp.ok ps, db) := by
  have hz : (idParam == 0) = false := by simpa using hid
  constructor
  · simp only [replaceLikes, hz, Bool.false_eq_true, if_false]
    refine congrArg (Prod.mk (Resp.ok ls)) ?_
    refine map_eq_self_of_fixed db _ (fun u hu => ?_)
    simp [hmiss u hu]
  · simp only [replacePlaylists, hz, Bool.false_eq_true, if_false]
    refine congrArg (Prod.mk (Resp.ok ps)) ?_
    refine map_eq_self_of_fixed db _ (fun u hu => ?_)
    simp [hmiss u hu]

/-- C10 witness: replacing the collections of the absent user 2 in a
store holding only user 1 succeeds and changes nothing. -/
theorem replace_collections_missing_user_witness :
    replaceLikes [sampleUser] 2 (some ["t1"]) = (Resp.ok ["t1"], [sampleUser])
    ∧ replacePlaylists [sampleUser] 2 (some []) = (Resp.ok [], [sampleUser]) :=
  replace_collections_missing_user [sampleUser] 2 ["t1"] [] (by decide) (by decide)

/-- C1: for every upload request whose body admin password is absent or
different from the configured secret, the pipeline answers Forbidden
(403), removes the file multer already staged from the uploads directory,
and inserts no row into the tracks table. -/
theorem upload_forbidden_cleanup (cfg : Config) (fetchResult : FetchOutcome)
    (req : UploadRequest) (st : ServerState)
    (h : req.bodyAdminPassword = none ∨ req.bodyAdminPassword ≠ some cfg.adminPassword) :
    (uploadTrack cfg fetchResult req st).1 = Resp.err 403 "Нет прав. Неверный admin-пароль."
    ∧ (uploadTrack cfg fetchResult req st).2.tracks = st.tracks
    ∧ ∀ f, req.file = some f → f.path ∉ (uploadTrack cfg fetchResult req st).2.files :=
  uploadForbiddenPath cfg fetchResult req st h

/-- C1 witness: the concrete forbidden upload with a wrong body secret
and a staged file. -/
theorem upload_forbidden_cleanup_witness :
    (uploadTrack cfgLocal FetchOutcome.ok
        (mkUploadReq (some "wrong") none (some "Song") (some sampleStaged)) sampleState).1
      = Resp.err 403 "Нет прав. Неверный admin-пароль."
    ∧ sampleStaged.path ∉ (uploadTrack cfgLocal FetchOutcome.ok
        (mkUploadReq (some "wrong") none (some "Song") (some sampleStaged)) sampleState).2.files :=
  ⟨(upload_forbidden_cleanup cfgLocal FetchOutcome.ok
      (mkUploadReq (some "wrong") none (some "Song") (some sampleStaged)) sampleState
      (Or.inr (by decide))).1,
   (upload_forbidden_cleanup cfgLocal FetchOutcome.ok
      (mkUploadReq (some "wrong") none (some "Song") (some sampleStaged)) sampleState
      (Or.inr (by decide))).2.2 sampleStaged rfl⟩

/-- C2: for every authorized, valid upload with Supabase configured whose
offload fetch fails (non-2xx response or thrown exception), the pipeline
answers status 500 and inserts no row into the tracks table. -/
theorem upload_offload_failure_no_insert (cfg : Config) (fetchResult : FetchOutcome)
    (req : UploadRequest) (st : ServerState) (f : StagedFile)
    (hauth : req.bodyAdminPassword = some cfg.adminPassword)
    (hpw : cfg.adminPassword ≠ "")
    (htitle : trimStr (req.title.getD "") ≠ "")
    (hfile : req.file = some f)
    (hurl : cfg.supabaseUrl ≠ "") (hkey : cfg.supabaseServiceKey ≠ "")
    (hfail : fetchResult ≠ FetchOutcome.ok) :
    respStatus (uploadTrack cfg fetchResult req st).1 = some 500
    ∧ (uploadTrack cfg fetchResult req st).2.tracks = st.tracks := by
  have hok : uploadAuthFails cfg req.bodyAdminPassword = false := by
    rw [hauth]
    exact uploadAuthFails_of_good cfg hpw
  have ht : (trimStr (req.title.getD "") == "") = false := by simpa using htitle
  have hc : (cfg.supabaseUrl != "" && cfg.supabaseServiceKey != "") = true := by
    simp [hurl, hkey]
  cases fetchResult with
  | ok => exact absurd rfl hfail
  | httpError s text =>
    constructor <;> simp [uploadTrack, hok, ht, hfile, hc, respStatus]
  | exn m =>
    constructor <;> simp [uploadTrack, hok, ht, hfile, hc, respStatus]

/-- C2 witness: a concrete authorized valid upload against a configured
store whose offload answers 400. -/
theorem upload_offload_failure_no_insert_witness :
    respStatus (uploadTrack cfgRemote (FetchOutcome.httpError 400 "denied")
        (mkUploadReq (some "s") none (some "Song") (some sampleStaged)) sampleState).1
      = some 500
    ∧ (uploadTrack cfgRemote (FetchOutcome.httpError 400 "denied")
        (mkUploadReq (some "s") none (some "Song") (some sampleStaged)) sampleState).2.tracks
      = sampleState.tracks :=
  upload_offload_failure_no_insert cfgRemote (FetchOutcome.httpError 400 "denied")
    (mkUploadReq (some "s") none (some "Song") (some sampleStaged)) sampleState sampleStaged
    rfl (by decide) (by decide) rfl (by decide) (by decide) (by decide)

/-- C3 counterexample: an authorized upload with an empty title and a
staged file answers 400, yet the staged file is NOT removed — it is still
listed in the uploads directory afterwards, refuting that no staged file
remains on disk. -/
theorem upload_validation_keeps_staged_file :
    (uploadTrack cfgLocal FetchOutcome.ok
        (mkUploadReq (some "s") none (some "") (some sampleStaged)) sampleState).1
      = Resp.err 400 "title обязателен"
    ∧ sampleStaged.path ∈ (uploadTrack cfgLocal FetchOutcome.ok
        (mkUploadReq (some "s") none (some "") (some sampleStaged)) sampleState).2.files := by
  constructor <;> decide

/-- C3 amended: an authorized upload whose trimmed title is empty or
whose file is absent answers 400 with no side effect at all — no tracks
row is inserted and the staged file, when present, is left on disk
untouched (the code performs no cleanup on this path). -/
theorem upload_validation_no_cleanup (cfg : Config) (fetchResult : FetchOutcome)
    (req : UploadRequest) (st : ServerState)
    (hauth : req.bodyAdminPassword = some cfg.adminPassword)
    (hpw : cfg.adminPassword ≠ "")
    (hbad : trimStr (req.title.getD "") = "" ∨ req.file = none) :
    respStatus (uploadTrack cfg fetchResult req st).1 = some 400
    ∧ (uploadTrack cfg fetchResult req st).2 = st := by
  have hok : uploadAuthFails cfg req.bodyAdminPassword = false := by
    rw [hauth]
    exact uploadAuthFails_of_good cfg hpw
  rcases hbad with hb | hb
  · constructor <;> simp [uploadTrack, hok, hb, respStatus]
  · by_cases ht : trimStr (req.title.getD "") = ""
    · constructor <;> simp [uploadTrack, hok, ht, respStatus]
    · have ht2 : (trimStr (req.title.getD "") == "") = false := by simpa using ht
      constructor <;> simp [uploadTrack, hok, ht2, hb, respStatus]

/-- C3 amended witness: the amended behaviour at the concrete input of
the counterexample, via the amended theorem. -/
theorem upload_validation_no_cleanup_witness :
    respStatus (uploadTrack cfgLocal FetchOutcome.ok
        (mkUploadReq (some "s") none (some "") (some sampleStaged)) sampleState).1
      = some 400
    ∧ (uploadTrack cfgLocal FetchOutcome.ok
        (mkUploadReq (some "s") none (some "") (some sampleStaged)) sampleState).2
      = sampleState :=
  upload_validation_no_cleanup cfgLocal FetchOutcome.ok
    (mkUploadReq (some "s") none (some "") (some sampleStaged)) sampleState
    rfl (by decide) (Or.inl (by decide))

/-- C4 counterexample: an authorized, valid upload finalized without
remote object storage (the decision not to use one) keeps the temporary
local file: the upload succeeds and the staged path is still in the
uploads directory, refuting removal regardless of outcome. -/
theorem upload_local_mode_keeps_file :
    (uploadTrack cfgLocal FetchOutcome.ok
        (mkUploadReq (some "s") none (some "Song") (some sampleStaged)) sampleState).1
      = Resp.ok { id := 1, title := "Song", artist := "", url := "/uploads/100_track.mp3" }
    ∧ sampleStaged.path ∈ (uploadTrack cfgLocal FetchOutcome.ok
        (mkUploadReq (some "s") none (some "Song") (some sampleStaged)) sampleState).2.files := by
  constructor <;> decide

/-- C4 amended: for an authorized valid upload, when remote object
storage is configured the temporary local file is removed whatever the
offload outcome (success, non-2xx, exception); when it is not configured
the staged file is retained as the locally served copy and the directory
is unchanged. -/
theorem upload_offload_cleanup (cfg : Config) (fetchResult : FetchOutcome)
    (req : UploadRequest) (st : ServerState) (f : StagedFile)
    (hauth : req.bodyAdminPassword = some cfg.adminPassword)
    (hpw : cfg.adminPassword ≠ "")
    (htitle : trimStr (req.title.getD "") ≠ "")
    (hfile : req.file = some f) :
    ((cfg.supabaseUrl ≠ "" ∧ cfg.supabaseServiceKey ≠ "") →
      f.path ∉ (uploadTrack cfg fetchResult req st).2.files)
    ∧ ((cfg.supabaseUrl = "" ∨ cfg.supabaseServiceKey = "") →
      (uploadTrack cfg fetchResult req st).2.files = st.files) := by
  have hok : uploadAuthFails cfg req.bodyAdminPassword = false := by
    rw [hauth]
    exact uploadAuthFails_of_good cfg hpw
  have ht : (trimStr (req.title.getD "") == "") = false := by simpa using htitle
  constructor
  · rintro ⟨hurl, hkey⟩
    have hc : (cfg.supabaseUrl != "" && cfg.supabaseServiceKey != "") = true := by
      simp [hurl, hkey]
    cases fetchResult with
    | ok =>
      simp [uploadTrack, hok, ht, hfile, hc, recordTrack, insertTrack, removeFile,
        List.mem_filter]
    | httpError s text =>
      simp [uploadTrack, hok, ht, hfile, hc, removeFile, List.mem_filter]
    | exn m =>
      simp [uploadTrack, hok, ht, hfile, hc, removeFile, List.mem_filter]
  · intro hun
    have hc : (cfg.supabaseUrl != "" && cfg.supabaseServiceKey != "") = false := by
      rcases hun with hu | hu <;> simp [hu]
    simp [uploadTrack, hok, ht, hfile, hc, recordTrack, insertTrack]

/-- C4 amended witness: with Supabase configured and a failing offload,
the concrete staged file is gone afterwards. -/
theorem upload_offload_cleanup_witness :
    sampleStaged.path ∉ (uploadTrack cfgRemote (FetchOutcome.exn "socket hang up")
        (mkUploadReq (some "s") none (some "Song") (some sampleStaged)) sampleState).2.files :=
  (upload_offload_cleanup cfgRemote (FetchOutcome.exn "socket hang up")
      (mkUploadReq (some "s") none (some "Song") (some sampleStaged)) sampleState sampleStaged
      rfl (by decide) (by decide) rfl).1 ⟨by decide, by decide⟩

/-- C9 counterexample: with the correct secret supplied only through the
x-admin-password header, the requireOwner guard would pass, yet the
upload route answers 403 Forbidden — the header does not authorize the
upload operation the same as the body field. -/
theorem upload_header_secret_rejected :
    requireOwnerPasses cfgLocal none (some "s") = true
    ∧ (uploadTrack cfgLocal FetchOutcome.ok
        (mkUploadReq none (some "s") (some "Song") (some sampleStaged)) sampleState).1
      = Resp.err 403 "Нет прав. Неверный admin-пароль." := by
  constructor <;> decide

/-- C9 amended: the requireOwner guard used by the metadata-mutating
track operations accepts the token from the body field or the header and
allows exactly when it is non-empty and equals the configured secret; the
upload route, however, reads only the body field, so a request whose body
carries no admin password is rejected with 403 regardless of its header. -/
theorem access_guard_token_sources :
    (∀ (cfg : Config) (body header : Option String),
      requireOwnerPasses cfg body header = true ↔
        (ownerToken body header ≠ "" ∧ ownerToken body header = cfg.adminPassword))
    ∧ (∀ (cfg : Config) (fetchResult : FetchOutcome) (req : UploadRequest) (st : ServerState),
        req.bodyAdminPassword = none →
        (uploadTrack cfg fetchResult req st).1
          = Resp.err 403 "Нет прав. Неверный admin-пароль.") := by
  constructor
  · intro cfg body header
    simp [requireOwnerPasses]
  · intro cfg fetchResult req st h
    exact (uploadForbiddenPath cfg fetchResult req st (Or.inl h)).1

/-- C9 amended witness: header-passing on the guard and body-only
rejection on the upload route, at concrete inputs. -/
theorem access_guard_token_sources_witness :
    requireOwnerPasses cfgRemote none (some "s") = true
    ∧ (uploadTrack cfgRemote FetchOutcome.ok (mkUploadReq none none none none) sampleState).1
      = Resp.err 403 "Нет прав. Неверный admin-пароль." :=
  ⟨(access_guard_token_sources.1 cfgRemote none (some "s")).mpr ⟨by decide, by decide⟩,
   access_guard_token_sources.2 cfgRemote FetchOutcome.ok
     (mkUploadReq none none none none) sampleState rfl⟩

/-- C5: for every authorized delete with a usable id: if no row carries
the id, the response is 404 with nothing changed; if the found row's url
starts with the local-upload path, the row is removed and its backing
file unlinked best-effort — the response is success whatever the unlink
outcome; if the url is remote, only the row is removed and the uploads
directory is untouched. -/
theorem delete_track_contract (cfg : Config) (body header : Option String)
    (idParam : Int) (unlinkFails : Bool) (st : ServerState)
    (hauth : requireOwnerPasses cfg body header = true) (hid : idParam ≠ 0) :
    ((∀ t ∈ st.tracks, (t.id : Int) ≠ idParam) →
      deleteTrack cfg body header idParam unlinkFails st
        = (Resp.err 404 "Трек не найден", st))
    ∧ (∀ row, st.tracks.find? (fun t => (t.id : Int) == idParam) = some row →
        (deleteTrack cfg body header idParam unlinkFails st).1 = Resp.ok ()
        ∧ row ∉ (deleteTrack cfg body header idParam unlinkFails st).2.tracks
        ∧ (startsWithStr row.url "/uploads/" = false →
            (deleteTrack cfg body header idParam unlinkFails st).2.files = st.files)
        ∧ (startsWithStr row.url "/uploads/" = true → unlinkFails = false →
            deleteFilePath row.url
              ∉ (deleteTrack cfg body header idParam unlinkFails st).2.files)) := by
  have hg : (!requireOwnerPasses cfg body header) = false := by simp [hauth]
  have hz : (idParam == 0) = false := by simpa using hid
  constructor
  · intro hmiss
    have hnone : st.tracks.find? (fun t => (t.id : Int) == idParam) = none := by
      rw [List.find?_eq_none]
      intro t ht
      simpa using hmiss t ht
    simp [deleteTrack, hg, hz, hnone]
  · intro row hfind
    have hp := List.find?_some hfind
    have hmem : row ∈ st.tracks := List.mem_of_find?_eq_some hfind
    have hne : st.tracks.filter (fun t => (t.id : Int) == idParam) ≠ [] :=
      List.ne_nil_of_mem (List.mem_filter.mpr ⟨hmem, hp⟩)
    have hlen : (st.tracks.filter (fun t => (t.id : Int) == idParam)).length ≠ 0 := by
      simpa [List.length_eq_zero] using hne
    have hcount : ((st.tracks.filter (fun t => (t.id : Int) == idParam)).length == 0)
        = false := by
      simpa using hlen
    refine ⟨?_, ?_, ?_, ?_⟩
    · cases hs : startsWithStr row.url "/uploads/" <;> cases unlinkFails <;>
        simp [deleteTrack, hg, hz, hfind, hcount, hs]
    · cases hs : startsWithStr row.url "/uploads/" <;> cases unlinkFails <;>
        simp [deleteTrack, hg, hz, hfind, hcount, hs, List.mem_filter, hp]
    · intro hs
      cases unlinkFails <;> simp [deleteTrack, hg, hz, hfind, hcount, hs]
    · intro hs hu
      subst hu
      simp [deleteTrack, hg, hz, hfind, hcount, hs, removeFile, List.mem_filter]

/-- C5 witness: deleting the locally backed track 1 from the sample
catalog succeeds, removes the row, and removes the backing file. -/
theorem delete_track_contract_witness :
    (deleteTrack cfgLocal (some "s") none 1 false sampleCatalogState).1 = Resp.ok ()
    ∧ sampleLocalTrack
        ∉ (deleteTrack cfgLocal (some "s") none 1 false sampleCatalogState).2.tracks
    ∧ deleteFilePath sampleLocalTrack.url
        ∉ (deleteTrack cfgLocal (some "s") none 1 false sampleCatalogState).2.files :=
  have h := (delete_track_contract cfgLocal (some "s") none 1 false sampleCatalogState
      (by decide) (by decide)).2 sampleLocalTrack (by decide)
  ⟨h.1, h.2.1, h.2.2.2 (by decide) rfl⟩

/-- Sanitizing a character always lands in the safe set. -/
theorem isSafeChar_sanitizeChar (a : Char) : isSafeChar (sanitizeChar a) = true := by
  unfold sanitizeChar
  by_cases hs : isSafeChar a
  · simp [hs]
  · simp only [if_neg hs]
    decide

/-- Every character of a sanitized base is safe. -/
theorem mem_sanitizeBase_safe (s : String) (c : Char)
    (hc : c ∈ (sanitizeBase s).data) : isSafeChar c = true := by
  have hc2 : c ∈ s.data.map sanitizeChar := hc
  rcases List.mem_map.mp hc2 with ⟨a, -, rfl⟩
  exact isSafeChar_sanitizeChar a

/-- C6 counterexample: for the original filename with a space inside its
extension, the staged name keeps that space — a character outside the
safe set that is not the extension's leading dot — refuting that
sanitization strips every unsafe character from the derived name. -/
theorem staged_filename_unsafe_ext :
    stagedFilename 1 "a.b c" = "1_a.b c"
    ∧ ¬ (∀ c ∈ (stagedFilename 1 "a.b c").data, isSafeChar c = true ∨ c = '.') := by
  constructor <;> decide

/-- C6 amended: the staged name is the timestamp, an underscore, the
sanitized base and the extension; every character of the sanitized base
lies in the safe alphanumeric/underscore/hyphen set, while the extension
(defaulted to .mp3 when the original has none) is appended verbatim and
may keep unsafe characters. -/
theorem staged_filename_base_sanitized (now : Nat) (orig : String) :
    stagedFilename now orig
        = toString now ++ "_" ++ stagedBase orig ++ stagedExt orig
    ∧ ∀ c ∈ (stagedBase orig).data, isSafeChar c = true := by
  refine ⟨rfl, ?_⟩
  intro c hc
  exact mem_sanitizeBase_safe _ c hc

/-- C6 amended witness: the shape and a safe base character at a concrete
original filename. -/
theorem staged_filename_base_sanitized_witness :
    stagedFilename 5 "a b.mp3"
        = toString 5 ++ "_" ++ stagedBase "a b.mp3" ++ stagedExt "a b.mp3"
    ∧ isSafeChar 'a' = true :=
  ⟨(staged_filename_base_sanitized 5 "a b.mp3").1,
   (staged_filename_base_sanitized 5 "a b.mp3").2 'a' (by decide)⟩

/-- C7 counterexample: with a database oracle on which every DDL
statement fails, initDb fails, yet the startup sequence still reaches
app.listen — the process keeps serving, refuting that a DDL failure is
fatal to startup. -/
theorem ddl_failure_still_listens :
    initDb (fun _ => Except.error "connection refused")
        = Except.error "connection refused"
    ∧ (startServer (fun _ => Except.error "connection refused")).listening = true := by
  constructor <;> rfl

/-- C7 amended: a DDL failure at process start is surfaced by logging it
from the catch handler, but it is not fatal — app.listen runs regardless
and the server keeps serving requests. -/
theorem ddl_failure_logged_not_fatal (run : String → Except String Unit) (e : String)
    (h : initDb run = Except.error e) :
    (startServer run).loggedError = some ("DB init error: " ++ e)
    ∧ (startServer run).listening = true := by
  simp [startServer, h]

/-- C7 amended witness: the amended behaviour at the concrete failing
oracle. -/
theorem ddl_failure_logged_not_fatal_witness :
    (startServer (fun _ => Except.error "boom")).loggedError
        = some ("DB init error: " ++ "boom")
    ∧ (startServer (fun _ => Except.error "boom")).listening = true :=
  ddl_failure_logged_not_fatal (fun _ => Except.error "boom") "boom" (by rfl)

end Forymusic
